import Mathlib

/-
Verification of the sector-geometry resolution and parameter-catalog
subsystem (filecoin-proofs/src/constants.rs).

The embedding models:
  - the ten supported sector-size constants (lines 12-21);
  - the ten SectorShape type aliases, i.e. the shape registry, as arity
    triples (base, sub, top) with 0 standing for the absent level U0
    (lines 131-140);
  - canonical_shape, the shape resolver from the test module
    (lines 211-258), over Nat with explicit u64/u32 semantics: the
    count_ones / trailing_zeros intrinsics are given fuel-64 definitions
    that agree with the 64-bit machine operations on all inputs below
    2^64, and the u32 subtraction log_byte_size - 5 is modelled with its
    debug-profile semantics (the function only exists in the test
    profile, where subtraction overflow aborts), as an explicit error;
  - the dispatch construct (lines 157-202) as a function that applies
    the supplied operation to the matching registered shape triple and
    returns none on the fall-through arm that aborts in the source;
  - get_parameter_data / parameter_id (lines 144-155); the manifest
    parameters.json and the protocol VERSION constant are not part of
    the slice, so the map and the version are taken as arguments.
-/

/-- Sector size constant, 1 shifted left by 11 (constants.rs line 12). -/
def SECTOR_SIZE_2_KIB : Nat := 2 ^ 11

/-- Sector size constant, 1 shifted left by 12 (constants.rs line 13). -/
def SECTOR_SIZE_4_KIB : Nat := 2 ^ 12

/-- Sector size constant, 1 shifted left by 14 (constants.rs line 14). -/
def SECTOR_SIZE_16_KIB : Nat := 2 ^ 14

/-- Sector size constant, 1 shifted left by 15 (constants.rs line 15). -/
def SECTOR_SIZE_32_KIB : Nat := 2 ^ 15

/-- Sector size constant, 1 shifted left by 23 (constants.rs line 16). -/
def SECTOR_SIZE_8_MIB : Nat := 2 ^ 23

/-- Sector size constant, 1 shifted left by 24 (constants.rs line 17). -/
def SECTOR_SIZE_16_MIB : Nat := 2 ^ 24

/-- Sector size constant, 1 shifted left by 29 (constants.rs line 18). -/
def SECTOR_SIZE_512_MIB : Nat := 2 ^ 29

/-- Sector size constant, 1 shifted left by 30 (constants.rs line 19). -/
def SECTOR_SIZE_1_GIB : Nat := 2 ^ 30

/-- Sector size constant, 1 shifted left by 35 (constants.rs line 20). -/
def SECTOR_SIZE_32_GIB : Nat := 2 ^ 35

/-- Sector size constant, 1 shifted left by 36 (constants.rs line 21). -/
def SECTOR_SIZE_64_GIB : Nat := 2 ^ 36

/-- Fuel-indexed population count: adds the low bit and recurses on the
upper bits.  With fuel 64 it equals u64::count_ones on every input
below 2^64. -/
def countOnesAux : Nat → Nat → Nat
  | 0, _ => 0
  | fuel + 1, n => n % 2 + countOnesAux fuel (n / 2)

/-- Model of u64::count_ones for inputs below 2^64. -/
def countOnes (n : Nat) : Nat := countOnesAux 64 n

/-- Fuel-indexed trailing-zero count.  With fuel 64 it equals
u64::trailing_zeros on every input below 2^64, including the value 64
on input 0. -/
def trailingZerosAux : Nat → Nat → Nat
  | 0, _ => 0
  | fuel + 1, n => if n % 2 = 1 then 0 else 1 + trailingZerosAux fuel (n / 2)

/-- Model of u64::trailing_zeros for inputs below 2^64. -/
def trailingZeros (n : Nat) : Nat := trailingZerosAux 64 n

/-- The two abort sites of canonical_shape: the count_ones assertion on
line 214, and the u32 subtraction underflow on line 216 (the function is
test-profile code, so overflow checks are on and underflow aborts). -/
inductive ShapeError where
  | notPowerOfTwo
  | underflow
  deriving DecidableEq

deriving instance DecidableEq for Except

/-- Shape resolver canonical_shape (constants.rs lines 211-258).  Returns
the (base, sub, top) arity triple, with 0 for an absent sub or top level,
matching the source's encoding of None as 0.  The two panics are modelled
as errors. -/
def canonicalShape (sectorSize : Nat) : Except ShapeError (Nat × Nat × Nat) :=
  if countOnes sectorSize ≠ 1 then .error .notPowerOfTwo
  else
    let logByteSize := trailingZeros sectorSize
    if logByteSize < 5 then .error .underflow
    else
      let logNodes := logByteSize - 5
      let maxTreeLog := 3
      let logMaxBase := 27
      let logBase := maxTreeLog
      let logInBase := min logMaxBase (logNodes / logBase * logBase)
      let logUpper := logNodes - logInBase
      let logRem := logUpper % maxTreeLog
      let subTop : Option Nat × Option Nat :=
        if logUpper > 0 then
          if logRem = 0 then (some maxTreeLog, none)
          else if logUpper > maxTreeLog then (some maxTreeLog, some logRem)
          else (some logRem, none)
        else (none, none)
      let base := 2 ^ logBase
      let sub := match subTop.1 with
        | some l => 2 ^ l
        | none => 0
      let top := match subTop.2 with
        | some l => 2 ^ l
        | none => 0
      .ok (base, sub, top)

/-- Registry shape for 2 KiB: LCTree with arities U8, U0, U0 (line 131). -/
def SectorShape2KiB : Nat × Nat × Nat := (8, 0, 0)

/-- Registry shape for 4 KiB: LCTree with arities U8, U2, U0 (line 132). -/
def SectorShape4KiB : Nat × Nat × Nat := (8, 2, 0)

/-- Registry shape for 16 KiB: LCTree with arities U8, U8, U0 (line 133). -/
def SectorShape16KiB : Nat × Nat × Nat := (8, 8, 0)

/-- Registry shape for 32 KiB: LCTree with arities U8, U8, U2 (line 134). -/
def SectorShape32KiB : Nat × Nat × Nat := (8, 8, 2)

/-- Registry shape for 8 MiB: LCTree with arities U8, U0, U0 (line 135). -/
def SectorShape8MiB : Nat × Nat × Nat := (8, 0, 0)

/-- Registry shape for 16 MiB: LCTree with arities U8, U2, U0 (line 136). -/
def SectorShape16MiB : Nat × Nat × Nat := (8, 2, 0)

/-- Registry shape for 512 MiB: LCTree with arities U8, U0, U0 (line 137). -/
def SectorShape512MiB : Nat × Nat × Nat := (8, 0, 0)

/-- Registry shape for 1 GiB: LCTree with arities U8, U2, U0 (line 138). -/
def SectorShape1GiB : Nat × Nat × Nat := (8, 2, 0)

/-- Registry shape for 32 GiB: LCTree with arities U8, U8, U0 (line 139). -/
def SectorShape32GiB : Nat × Nat × Nat := (8, 8, 0)

/-- Registry shape for 64 GiB: LCTree with arities U8, U8, U2 (line 140). -/
def SectorShape64GiB : Nat × Nat × Nat := (8, 8, 2)

/-- The supported sector sizes, in the order the dispatch arms test them. -/
def supportedSectorSizes : List Nat :=
  [SECTOR_SIZE_2_KIB, SECTOR_SIZE_4_KIB, SECTOR_SIZE_16_KIB, SECTOR_SIZE_32_KIB,
   SECTOR_SIZE_8_MIB, SECTOR_SIZE_16_MIB, SECTOR_SIZE_512_MIB, SECTOR_SIZE_1_GIB,
   SECTOR_SIZE_32_GIB, SECTOR_SIZE_64_GIB]

/-- The shape registry: each supported size paired with the arity triple
of its SectorShape type alias (lines 131-140). -/
def shapeRegistryList : List (Nat × (Nat × Nat × Nat)) :=
  [(SECTOR_SIZE_2_KIB, SectorShape2KiB), (SECTOR_SIZE_4_KIB, SectorShape4KiB),
   (SECTOR_SIZE_16_KIB, SectorShape16KiB), (SECTOR_SIZE_32_KIB, SectorShape32KiB),
   (SECTOR_SIZE_8_MIB, SectorShape8MiB), (SECTOR_SIZE_16_MIB, SectorShape16MiB),
   (SECTOR_SIZE_512_MIB, SectorShape512MiB), (SECTOR_SIZE_1_GIB, SectorShape1GiB),
   (SECTOR_SIZE_32_GIB, SectorShape32GiB), (SECTOR_SIZE_64_GIB, SectorShape64GiB)]

/-- First-match association lookup, the model of a string-keyed or
size-keyed map probe. -/
def assocGet {α β : Type} [DecidableEq α] (key : α) : List (α × β) → Option β
  | [] => none
  | (k, v) :: rest => if key = k then some v else assocGet key rest

/-- Dispatch construct (constants.rs lines 157-202): compares the size
against each supported constant in source order and applies the supplied
operation to the matching registered shape; the fall-through arm, which
aborts the process in the source, is modelled as none. -/
def with_shape {α : Type} (size : Nat) (f : Nat × Nat × Nat → α) : Option α :=
  if size = SECTOR_SIZE_2_KIB then some (f SectorShape2KiB)
  else if size = SECTOR_SIZE_4_KIB then some (f SectorShape4KiB)
  else if size = SECTOR_SIZE_16_KIB then some (f SectorShape16KiB)
  else if size = SECTOR_SIZE_32_KIB then some (f SectorShape32KiB)
  else if size = SECTOR_SIZE_8_MIB then some (f SectorShape8MiB)
  else if size = SECTOR_SIZE_16_MIB then some (f SectorShape16MiB)
  else if size = SECTOR_SIZE_512_MIB then some (f SectorShape512MiB)
  else if size = SECTOR_SIZE_1_GIB then some (f SectorShape1GiB)
  else if size = SECTOR_SIZE_32_GIB then some (f SectorShape32GiB)
  else if size = SECTOR_SIZE_64_GIB then some (f SectorShape64GiB)
  else none

/-- The number of leaf-address bits the resolver assigns to the base
level: log_in_base on line 222, recomputed from the sector size. -/
def log_in_base (sectorSize : Nat) : Nat :=
  min 27 ((trailingZeros sectorSize - 5) / 3 * 3)

/-- An absent level (encoded 0) counts as multiplicative identity 1 when
computing total addressable leaf capacity. -/
def presentArity (a : Nat) : Nat := if a = 0 then 1 else a

/-- Projects a successful resolver result; errors map to a dummy triple. -/
def shapeOrDefault : Except ShapeError (Nat × Nat × Nat) → Nat × Nat × Nat
  | .ok s => s
  | .error _ => (0, 0, 0)

/-- Fuel-indexed floor base-2 logarithm; with fuel 64 it is exact on
every positive input below 2^64. -/
def log2Aux : Nat → Nat → Nat
  | 0, _ => 0
  | fuel + 1, n => if n < 2 then 0 else 1 + log2Aux fuel (n / 2)

/-- Floor base-2 logarithm for inputs below 2^64. -/
def log2fuel (n : Nat) : Nat := log2Aux 64 n

/-- The closed-form decomposition exactly as the specification words it:
logNodes is log2 of the size minus 5, baseLog the largest multiple of 3
at most min(27, logNodes), upperLog the leftover, remLog its residue mod
3; sub and top are then chosen by the four stated cases, base is always
8, and an absent level is encoded 0. -/
def specShapeDecomposition (sectorSize : Nat) : Nat × Nat × Nat :=
  let logNodes := log2fuel sectorSize - 5
  let baseLog := min 27 (logNodes / 3 * 3)
  let upperLog := logNodes - baseLog
  let remLog := upperLog % 3
  if upperLog = 0 then (8, 0, 0)
  else if remLog = 0 then (8, 8, 0)
  else if upperLog > 3 then (8, 8, 2 ^ remLog)
  else (8, 2 ^ remLog, 0)

/-- Modelled from the spec: the record type of one parameter-artifact
entry.  The manifest file parameters.json is not part of the slice; the
spec describes an entry as content digest, length and auxiliary
identifiers, opaque to this core beyond identity and existence. -/
structure ParameterData where
  digest : String
  length : Nat
  auxiliaryId : String
  deriving DecidableEq

/-- Key composition (constants.rs lines 149-155): the versioned key
v-version-dash-id dot params.  The VERSION constant lives outside the
slice, so the protocol version is an argument. -/
def parameter_id (version : Nat) (cache_id : String) : String :=
  "v" ++ toString version ++ "-" ++ cache_id ++ ".params"

/-- Catalog lookup (constants.rs lines 144-147): probe the parsed
manifest, modelled as an association list, at the versioned key. -/
def get_parameter_data (parameters : List (String × ParameterData))
    (version : Nat) (cache_id : String) : Option ParameterData :=
  assocGet (parameter_id version cache_id) parameters

/-! ### Helper lemmas -/

lemma countOnesAux_eq_zero :
    ∀ fuel n : Nat, n < 2 ^ fuel → countOnesAux fuel n = 0 → n = 0 := by
  intro fuel
  induction fuel with
  | zero =>
    intro n hn _h
    have h1 : n < 1 := by simpa using hn
    omega
  | succ f ih =>
    intro n hn h
    simp only [countOnesAux] at h
    have h4 : n / 2 < 2 ^ f := by
      rw [Nat.div_lt_iff_lt_mul (by norm_num)]
      calc n < 2 ^ (f + 1) := hn
        _ = 2 ^ f * 2 := by ring
    have h5 : n / 2 = 0 := ih (n / 2) h4 (by omega)
    omega

lemma countOnesAux_eq_one :
    ∀ fuel n : Nat, n < 2 ^ fuel → countOnesAux fuel n = 1 → ∃ k, n = 2 ^ k := by
  intro fuel
  induction fuel with
  | zero =>
    intro n _hn h
    simp [countOnesAux] at h
  | succ f ih =>
    intro n hn h
    simp only [countOnesAux] at h
    have h4 : n / 2 < 2 ^ f := by
      rw [Nat.div_lt_iff_lt_mul (by norm_num)]
      calc n < 2 ^ (f + 1) := hn
        _ = 2 ^ f * 2 := by ring
    rcases Nat.mod_two_eq_zero_or_one n with he | ho
    · have h5 : countOnesAux f (n / 2) = 1 := by omega
      obtain ⟨k, hk⟩ := ih (n / 2) h4 h5
      refine ⟨k + 1, ?_⟩
      have h6 : n = 2 * (n / 2) := by omega
      rw [h6, hk, pow_succ]
      ring
    · have h5 : countOnesAux f (n / 2) = 0 := by omega
      have h6 := countOnesAux_eq_zero f (n / 2) h4 h5
      exact ⟨0, by omega⟩

lemma canonicalShape_pow_spec :
    ∀ k : Nat, k < 64 → 5 ≤ k →
      canonicalShape (2 ^ k) = Except.ok (specShapeDecomposition (2 ^ k)) := by
  decide

lemma assocGet_isSome_iff {α β : Type} [DecidableEq α] (key : α) (l : List (α × β)) :
    (∃ v, assocGet key l = some v) ↔ key ∈ l.map Prod.fst := by
  induction l with
  | nil => simp [assocGet]
  | cons p rest ih =>
    obtain ⟨k, v⟩ := p
    simp only [assocGet, List.map_cons, List.mem_cons]
    by_cases h : key = k
    · simp [h]
    · simp [h, ih]

/-! ### Claim theorems -/

/-- Claim C1, counterexample: the registry and the resolver disagree.
At 16 KiB the resolver yields (8, 0, 0) while the registered shape is
(8, 8, 0), and at 32 KiB the resolver yields (8, 2, 0) while the
registered shape is (8, 8, 2); the code's own test list skips exactly
these two sizes. -/
theorem canonical_shape_registry_mismatch :
    canonicalShape SECTOR_SIZE_16_KIB = Except.ok (8, 0, 0) ∧
    SectorShape16KiB = (8, 8, 0) ∧
    Except.ok SectorShape16KiB ≠ canonicalShape SECTOR_SIZE_16_KIB ∧
    canonicalShape SECTOR_SIZE_32_KIB = Except.ok (8, 2, 0) ∧
    SectorShape32KiB = (8, 8, 2) ∧
    Except.ok SectorShape32KiB ≠ canonicalShape SECTOR_SIZE_32_KIB := by
  decide

/-- Claim C1, amended: for every entry of the shape registry other than
the 16 KiB and 32 KiB entries, the registered triple equals the triple
the resolver computes for that size. -/
theorem canonical_shape_registry_agree_outside_16_32KiB :
    ∀ p ∈ shapeRegistryList,
      p.1 ≠ SECTOR_SIZE_16_KIB → p.1 ≠ SECTOR_SIZE_32_KIB →
        canonicalShape p.1 = Except.ok p.2 := by
  decide

/-- Claim C1, witness: the amended agreement instantiated at the 2 KiB
registry entry. -/
theorem canonical_shape_registry_agree_witness :
    canonicalShape SECTOR_SIZE_2_KIB = Except.ok SectorShape2KiB :=
  canonical_shape_registry_agree_outside_16_32KiB
    (SECTOR_SIZE_2_KIB, SectorShape2KiB) (by decide) (by decide) (by decide)

/-- Claim C2, counterexample: at 2 KiB the plain arity product of the
shape descriptor, with absent levels as 1, is 8, while the sector holds
64 leaf nodes; the claimed identity fails as stated. -/
theorem arity_product_ne_capacity_2KiB :
    SectorShape2KiB = (8, 0, 0) ∧
    canonicalShape SECTOR_SIZE_2_KIB = Except.ok (8, 0, 0) ∧
    presentArity 8 * presentArity 0 * presentArity 0 = 8 ∧
    SECTOR_SIZE_2_KIB / 32 = 64 ∧
    (8 : Nat) ≠ 64 := by
  decide

/-- Claim C2, amended: for every supported sector size, the base-level
leaf capacity 2 to the log_in_base, multiplied by the resolver's sub and
top arities with absent levels as 1, equals the sector's leaf count,
sector size divided by 32. -/
theorem base_capacity_identity_supported :
    ∀ size ∈ supportedSectorSizes,
      2 ^ log_in_base size *
        presentArity (shapeOrDefault (canonicalShape size)).2.1 *
        presentArity (shapeOrDefault (canonicalShape size)).2.2 = size / 32 := by
  decide

/-- Claim C2, witness: the capacity identity instantiated at 2 KiB. -/
theorem base_capacity_identity_witness :
    2 ^ log_in_base SECTOR_SIZE_2_KIB *
      presentArity (shapeOrDefault (canonicalShape SECTOR_SIZE_2_KIB)).2.1 *
      presentArity (shapeOrDefault (canonicalShape SECTOR_SIZE_2_KIB)).2.2 =
      SECTOR_SIZE_2_KIB / 32 :=
  base_capacity_identity_supported SECTOR_SIZE_2_KIB (by decide)

/-- Claim C3: the resolver reproduces the four worked examples of the
specification, with the absent level encoded 0. -/
theorem canonical_shape_worked_examples :
    canonicalShape 2048 = Except.ok (8, 0, 0) ∧
    canonicalShape 4096 = Except.ok (8, 2, 0) ∧
    canonicalShape (2 ^ 35) = Except.ok (8, 8, 0) ∧
    canonicalShape (2 ^ 36) = Except.ok (8, 8, 2) := by
  decide

/-- Claim C4: on every power-of-two sector size in the u64 domain that
is at least the 32-byte leaf size, the resolver computes exactly the
closed-form decomposition the specification states. -/
theorem canonical_shape_eq_spec_decomposition :
    ∀ k : Nat, k < 64 → 5 ≤ k →
      canonicalShape (2 ^ k) = Except.ok (specShapeDecomposition (2 ^ k)) :=
  canonicalShape_pow_spec

/-- Claim C4, witness: the closed-form agreement instantiated at the
64 GiB size, where all three levels are present. -/
theorem canonical_shape_eq_spec_decomposition_witness :
    canonicalShape (2 ^ 36) = Except.ok (specShapeDecomposition (2 ^ 36)) ∧
    specShapeDecomposition (2 ^ 36) = (8, 8, 2) :=
  ⟨canonical_shape_eq_spec_decomposition 36 (by decide) (by decide), by decide⟩

/-- Claim C8: every registry entry has base arity 8, and the resolver
also computes base arity 8 at every supported size. -/
theorem base_arity_always_eight :
    ∀ p ∈ shapeRegistryList,
      p.2.1 = 8 ∧ (shapeOrDefault (canonicalShape p.1)).1 = 8 := by
  decide

/-- Claim C8, witness: base arity 8 at the 2 KiB registry entry. -/
theorem base_arity_always_eight_witness :
    SectorShape2KiB.1 = 8 ∧
    (shapeOrDefault (canonicalShape SECTOR_SIZE_2_KIB)).1 = 8 :=
  base_arity_always_eight (SECTOR_SIZE_2_KIB, SectorShape2KiB) (by decide)

/-- Claim C9: the base-capacity identity holds at every supported size,
but not at every power-of-two input: at 2 to the 38 bytes the resolver
returns (8, 8, 0), whose addressable capacity is 2 to the 30 leaves,
short of the 2 to the 33 leaf nodes the sector holds. -/
theorem capacity_identity_supported_not_universal :
    (∀ size ∈ supportedSectorSizes,
      2 ^ log_in_base size *
        presentArity (shapeOrDefault (canonicalShape size)).2.1 *
        presentArity (shapeOrDefault (canonicalShape size)).2.2 = size / 32) ∧
    canonicalShape (2 ^ 38) = Except.ok (8, 8, 0) ∧
    2 ^ log_in_base (2 ^ 38) * presentArity 8 * presentArity 0 = 2 ^ 30 ∧
    (2 ^ 38 : Nat) / 32 = 2 ^ 33 ∧
    (2 ^ 30 : Nat) ≠ 2 ^ 33 := by
  decide

/-- Claim C10: every power of two below the 32-byte leaf size makes the
u32 subtraction in the resolver underflow, so the resolver aborts there
rather than produce a shape, while 32 itself resolves normally: the
stated lower bound is a necessary precondition. -/
theorem canonical_shape_underflow_below_leaf_size :
    canonicalShape 1 = Except.error ShapeError.underflow ∧
    canonicalShape 2 = Except.error ShapeError.underflow ∧
    canonicalShape 4 = Except.error ShapeError.underflow ∧
    canonicalShape 8 = Except.error ShapeError.underflow ∧
    canonicalShape 16 = Except.error ShapeError.underflow ∧
    canonicalShape 32 = Except.ok (8, 0, 0) := by
  decide

set_option maxHeartbeats 2000000 in
/-- Claim C5: the dispatch construct equals a single mapped registry
probe — on a supported size it applies the supplied operation exactly
once, to that size's registered shape, and returns its result; on any
other size it reaches the aborting fall-through arm (modelled none)
without consulting the operation — and the fall-through happens exactly
on the unsupported sizes. -/
theorem with_shape_dispatch_correct {α : Type} (size : Nat)
    (f : Nat × Nat × Nat → α) :
    with_shape size f = Option.map f (assocGet size shapeRegistryList) ∧
    (with_shape size f = none ↔ size ∉ supportedSectorSizes) := by
  constructor
  · simp only [with_shape, shapeRegistryList, assocGet]
    split_ifs <;> rfl
  · simp only [with_shape, supportedSectorSizes, List.mem_cons,
      List.not_mem_nil]
    split_ifs <;> simp_all

/-- Claim C5, witness: dispatch instantiated at the 2 KiB size, where it
returns the registered shape itself, and at the unsupported size 1000,
where it falls through for every operation. -/
theorem with_shape_dispatch_witness :
    with_shape SECTOR_SIZE_2_KIB (fun s => s) = some SectorShape2KiB ∧
    with_shape 1000 (fun s : Nat × Nat × Nat => s) = none := by
  constructor
  · rw [(with_shape_dispatch_correct SECTOR_SIZE_2_KIB (fun s => s)).1]
    decide
  · exact (with_shape_dispatch_correct 1000 (fun s : Nat × Nat × Nat => s)).2.mpr
      (by decide)

/-- Claim C6: the catalog lookup probes the manifest at exactly the
versioned key composed from the protocol version and the bare cache
identifier; it yields an entry precisely when that key occurs among the
manifest keys, and the absent-value result, not an error, otherwise. -/
theorem get_parameter_data_lookup_spec
    (parameters : List (String × ParameterData)) (version : Nat)
    (cache_id : String) :
    get_parameter_data parameters version cache_id =
      assocGet ("v" ++ toString version ++ "-" ++ cache_id ++ ".params")
        parameters ∧
    ((∃ e, get_parameter_data parameters version cache_id = some e) ↔
      ("v" ++ toString version ++ "-" ++ cache_id ++ ".params") ∈
        parameters.map Prod.fst) ∧
    (("v" ++ toString version ++ "-" ++ cache_id ++ ".params") ∉
        parameters.map Prod.fst →
      get_parameter_data parameters version cache_id = none) := by
  refine ⟨rfl, ?_, ?_⟩
  · simpa [get_parameter_data, parameter_id] using
      assocGet_isSome_iff
        ("v" ++ toString version ++ "-" ++ cache_id ++ ".params") parameters
  · intro h
    rcases he : get_parameter_data parameters version cache_id with _ | e
    · rfl
    · have hm := (assocGet_isSome_iff
        ("v" ++ toString version ++ "-" ++ cache_id ++ ".params")
        parameters).mp ⟨e, by simpa [get_parameter_data, parameter_id] using he⟩
      exact absurd hm h

/-- Claim C6, witness: a one-entry manifest at protocol version 28
resolves the present identifier and leaves any other identifier
absent. -/
theorem get_parameter_data_lookup_witness :
    (∃ e, get_parameter_data
      [("v28-winning.params", ParameterData.mk "d" 0 "x")] 28 "winning" =
        some e) ∧
    get_parameter_data
      [("v28-winning.params", ParameterData.mk "d" 0 "x")] 28 "other" =
        none := by
  constructor
  · exact (get_parameter_data_lookup_spec
      [("v28-winning.params", ParameterData.mk "d" 0 "x")] 28 "winning").2.1.mpr
      (by decide)
  · exact (get_parameter_data_lookup_spec
      [("v28-winning.params", ParameterData.mk "d" 0 "x")] 28 "other").2.2
      (by decide)

/-- Claim C7: on the u64 domain, the resolver signals the
power-of-two configuration error on every input that is not a power of
two, and succeeds with some shape on every power of two at least the
32-byte leaf size. -/
theorem canonical_shape_error_handling :
    ∀ n : Nat, n < 2 ^ 64 →
      ((¬ ∃ k, n = 2 ^ k) →
        canonicalShape n = Except.error ShapeError.notPowerOfTwo) ∧
      (∀ k, n = 2 ^ k → 32 ≤ n → ∃ s, canonicalShape n = Except.ok s) := by
  intro n hn
  constructor
  · intro hnp
    have h1 : countOnes n ≠ 1 := fun hc =>
      hnp (countOnesAux_eq_one 64 n hn hc)
    simp only [canonicalShape]
    rw [if_pos h1]
  · intro k hk h32
    subst hk
    have hk64 : k < 64 := by
      by_contra hcon
      push_neg at hcon
      have : 2 ^ 64 ≤ 2 ^ k := Nat.pow_le_pow_right (by norm_num) hcon
      omega
    have hk5 : 5 ≤ k := by
      by_contra hcon
      push_neg at hcon
      have : 2 ^ k ≤ 2 ^ 4 := Nat.pow_le_pow_right (by norm_num) (by omega)
      omega
    exact ⟨specShapeDecomposition (2 ^ k), canonicalShape_pow_spec k hk64 hk5⟩

/-- Claim C7, witness: error handling instantiated at 2 KiB, a power of
two at least the leaf size, on which the resolver succeeds. -/
theorem canonical_shape_error_handling_witness :
    ∃ s, canonicalShape 2048 = Except.ok s :=
  (canonical_shape_error_handling 2048 (by norm_num)).2 11 (by norm_num)
    (by norm_num)

/-- Claim C9, witness: the capacity identity conjunct instantiated at
the 32 GiB size, where the base level is capped at 2 to the 27. -/
theorem capacity_identity_supported_not_universal_witness :
    2 ^ log_in_base SECTOR_SIZE_32_GIB *
      presentArity (shapeOrDefault (canonicalShape SECTOR_SIZE_32_GIB)).2.1 *
      presentArity (shapeOrDefault (canonicalShape SECTOR_SIZE_32_GIB)).2.2 =
      SECTOR_SIZE_32_GIB / 32 :=
  capacity_identity_supported_not_universal.1 SECTOR_SIZE_32_GIB (by decide)
